import Mathlib

/-!
# RecorderOpenFace: a shallow embedding of the per-frame recorder

The development follows `lib/local/Recorder/src/RecorderOpenFace.cpp`.

* The recorder object becomes the structure `RecorderOpenFace`; every member
  function becomes a function from the state before the call to the state
  after it.
* Floating-point values are only stored and handed on by the recorder, never
  computed with, so a value is kept as its bit pattern (`Double`, `Float32`).
* Container sizes and matrix row counts are natural numbers; the recorder only
  reads them and halves row counts.  The observation counter is declared in the
  class header, which is not among the sources; following the data model of the
  specification (a frame count that starts at 0 and strictly increases) it is a
  natural number that `WriteObservation` increments.
* The three sinks (`RecorderCSV`, `RecorderHOG`, `cv::VideoWriter`) are not
  part of the file.  Each is represented at its call boundary: whether it is
  open, and the arguments of every call it has received, in call order.
* Text printed on the standard output is collected in `console`.
-/

namespace Recorder

/-! ## Values stored in the observation buffer -/

/-- A C++ `double`, kept as its 64-bit pattern. -/
structure Double where
  bits : Nat
  deriving DecidableEq, Repr

/-- A C++ `float`, kept as its 32-bit pattern. -/
structure Float32 where
  bits : Nat
  deriving DecidableEq, Repr

/-- The type `cv::Vec6d`. -/
structure Vec6d where
  v0 : Double
  v1 : Double
  v2 : Double
  v3 : Double
  v4 : Double
  v5 : Double
  deriving DecidableEq, Repr

/-- The type `cv::Vec2d`. -/
structure Vec2d where
  v0 : Double
  v1 : Double
  deriving DecidableEq, Repr

/-- The type `cv::Point3f`. -/
structure Point3f where
  x : Float32
  y : Float32
  z : Float32
  deriving DecidableEq, Repr

/-- The type `cv::Point2d`. -/
structure Point2d where
  x : Double
  y : Double
  deriving DecidableEq, Repr

/-- The type `cv::Mat_<double>`: shape and elements. -/
structure Mat_ where
  rows : Nat
  cols : Nat
  data : List Double
  deriving DecidableEq, Repr

/-- The type `cv::Mat` as used for the visualisation image: shape and bytes. -/
structure Mat where
  rows : Nat
  cols : Nat
  data : List Nat
  deriving DecidableEq, Repr

/-- The default-constructed `cv::Mat()`. -/
def Mat.default : Mat := ⟨0, 0, []⟩

/-- The test `cv::Mat::empty()`: no buffer, or no elements. -/
def Mat.empty (m : Mat) : Bool := m.data.isEmpty || m.rows * m.cols == 0

/-- The call `cv::Mat::size()`: width (columns) then height (rows). -/
def Mat.size (m : Mat) : Nat × Nat := (m.cols, m.rows)

/-- The default-constructed `cv::Mat_<double>()`. -/
def Mat_.default : Mat_ := ⟨0, 0, []⟩

/-- The default-constructed `cv::Vec6d()`, all zeros. -/
def Vec6d.default : Vec6d := ⟨⟨0⟩, ⟨0⟩, ⟨0⟩, ⟨0⟩, ⟨0⟩, ⟨0⟩⟩

/-- The default-constructed `cv::Vec2d()`. -/
def Vec2d.default : Vec2d := ⟨⟨0⟩, ⟨0⟩⟩

/-- The default-constructed `cv::Point3f()`. -/
def Point3f.default : Point3f := ⟨⟨0⟩, ⟨0⟩, ⟨0⟩⟩

/-! ## Recorder parameters -/

/-- The accessors of `RecorderOpenFaceParameters` that the recorder reads. -/
structure RecorderOpenFaceParameters where
  output2DLandmarks : Bool
  output3DLandmarks : Bool
  outputPDMParams : Bool
  outputPose : Bool
  outputAUs : Bool
  outputGaze : Bool
  outputHOG : Bool
  outputTrackedVideo : Bool
  outputCodec : String
  outputFps : Double
  deriving DecidableEq, Repr

/-! ## Console output -/

/-- Lines the recorder prints on the standard output. -/
inductive Printed where
  | failedToCreateDirectory (p : String)
  | warnCouldNotOpenVideoWriter (codec : String)
  | warnFrameNotSet
  deriving DecidableEq, Repr

/-! ## The sinks, at their call boundary -/

/-- The arguments of one call of `RecorderCSV::Open`. -/
structure CsvOpenArgs where
  output_file_name : String
  output_2D_landmarks : Bool
  output_3D_landmarks : Bool
  output_model_params : Bool
  output_pose : Bool
  output_AUs : Bool
  output_gaze : Bool
  num_face_landmarks : Nat
  num_model_modes : Nat
  num_eye_landmarks : Nat
  au_names_class : List String
  au_names_reg : List String
  deriving DecidableEq, Repr

/-- The arguments of one call of `RecorderCSV::WriteLine`. -/
structure CsvLine where
  observation_count : Nat
  time_stamp : Double
  landmark_detection_success : Bool
  landmark_confidence : Double
  landmarks_2D : Mat_
  landmarks_3D : Mat_
  pdm_model_params : Mat_
  rigid_shape_params : Vec6d
  pose_estimate : Vec6d
  gazeDirection0 : Point3f
  gazeDirection1 : Point3f
  gaze_angle : Vec2d
  eye_landmarks : List Point2d
  au_intensities : List (String × Double)
  au_occurences : List (String × Double)
  deriving DecidableEq, Repr

/-- Modelled from the spec: the class `RecorderCSV` (the tabular sink) is not
among the sources.  The spec gives its boundary: it is opened with a column
schema, accepts one row per call, and closing it finalises the file.  The
model keeps whether the sink is open, the arguments of every `Open` call and
the arguments of every `WriteLine` call, in call order. -/
structure RecorderCSV where
  isOpen : Bool
  opened : List CsvOpenArgs
  lines : List CsvLine
  deriving DecidableEq, Repr

/-- Modelled from the spec: `RecorderCSV::Open` receives the schema. -/
def RecorderCSV.Open (r : RecorderCSV) (a : CsvOpenArgs) : RecorderCSV :=
  { r with isOpen := true, opened := r.opened ++ [a] }

/-- Modelled from the spec: `RecorderCSV::WriteLine` receives one row. -/
def RecorderCSV.WriteLine (r : RecorderCSV) (l : CsvLine) : RecorderCSV :=
  { r with lines := r.lines ++ [l] }

/-- Modelled from the spec: `RecorderCSV::Close` releases the file; no row is
written by it. -/
def RecorderCSV.Close (r : RecorderCSV) : RecorderCSV :=
  { r with isOpen := false }

/-- The arguments of `RecorderHOG::SetObservationHOG`. -/
structure HogObservation where
  good_frame : Bool
  hog_descriptor : Mat_
  num_cols : Int
  num_rows : Int
  num_channels : Int
  deriving DecidableEq, Repr

/-- Modelled from the spec: the class `RecorderHOG` (the binary feature sink)
is not among the sources.  The spec gives its boundary: it is opened with a
path, and each write adds one record carrying the feature block and its
validity flag.  The recorder stages the block inside this object (through
`SetObservationHOG`) and `Write` takes no argument, so the model keeps the
staged block next to the list of records. -/
structure RecorderHOG where
  isOpen : Bool
  opened : List String
  staged : Option HogObservation
  records : List (Option HogObservation)
  deriving DecidableEq, Repr

/-- Modelled from the spec: `RecorderHOG::Open` receives the output path. -/
def RecorderHOG.Open (r : RecorderHOG) (file : String) : RecorderHOG :=
  { r with isOpen := true, opened := r.opened ++ [file] }

/-- Modelled from the spec: `RecorderHOG::SetObservationHOG` stages a block. -/
def RecorderHOG.SetObservationHOG (r : RecorderHOG) (o : HogObservation) : RecorderHOG :=
  { r with staged := some o }

/-- Modelled from the spec: `RecorderHOG::Write` adds one record holding the
staged block. -/
def RecorderHOG.Write (r : RecorderHOG) : RecorderHOG :=
  { r with records := r.records ++ [r.staged] }

/-- Modelled from the spec: `RecorderHOG::Close` releases the file; no record
is written by it. -/
def RecorderHOG.Close (r : RecorderHOG) : RecorderHOG :=
  { r with isOpen := false }

/-- How one call of `cv::VideoWriter::open` ends: the writer is initialised,
the call returns `false`, or it throws a `cv::Exception`. -/
inductive OpenResult where
  | opened
  | failed
  | threw
  deriving DecidableEq, Repr

/-- The arguments of one call of `cv::VideoWriter::open` and how it ended. -/
structure VideoOpenCall where
  filename : String
  fourcc : Nat
  fps : Double
  frameSize : Nat × Nat
  isColor : Bool
  result : OpenResult
  deriving DecidableEq, Repr

/-- The OpenCV class `cv::VideoWriter`, at its call boundary: whether it is
opened, every `open` call with its result, and every image handed to `write`,
in call order. -/
structure VideoWriter where
  isOpened : Bool
  openCalls : List VideoOpenCall
  written : List Mat
  deriving DecidableEq, Repr

/-- The call `cv::VideoWriter::open`: the writer is opened exactly when the
call succeeds. -/
def VideoWriter.open (w : VideoWriter) (c : VideoOpenCall) : VideoWriter :=
  { w with isOpened := decide (c.result = OpenResult.opened), openCalls := w.openCalls ++ [c] }

/-- The call `cv::VideoWriter::write`: the writer receives the image. -/
def VideoWriter.write (w : VideoWriter) (img : Mat) : VideoWriter :=
  { w with written := w.written ++ [img] }

/-- The call `cv::VideoWriter::release`. -/
def VideoWriter.release (w : VideoWriter) : VideoWriter :=
  { w with isOpened := false }

/-! ## Boost.Filesystem paths (POSIX build), as used by the constructor

A `boost::filesystem::path` holds its text unchanged, so a path is the list of
its characters.  The definitions follow the version 3 library, with `/` the
only separator. -/

/-- The test `is_separator`. -/
def is_separator (c : Char) : Bool := c == '/'

/-- Position of the last separator of `str`, if any (`find_last_of`). -/
def find_last_separator (str : List Char) : Option Nat :=
  (List.range str.length).reverse.find? (fun i => is_separator (str.getD i ' '))

/-- Position of the first separator of `str` at or after `start`
(`find_first_of`). -/
def find_first_separator (str : List Char) (start : Nat) : Option Nat :=
  (List.range str.length).find? (fun i => decide (start ≤ i) && is_separator (str.getD i ' '))

/-- The helper `filename_pos`: where the last element of the path starts. -/
def filename_pos (str : List Char) : Nat :=
  let end_pos := str.length
  if end_pos == 2 && is_separator (str.getD 0 ' ') && is_separator (str.getD 1 ' ') then 0
  else if end_pos != 0 && is_separator (str.getD (end_pos - 1) ' ') then end_pos - 1
  else
    match find_last_separator str with
    | none => 0
    | some pos => if pos == 1 && is_separator (str.getD 0 ' ') then 0 else pos + 1

/-- Leftmost position of the run of separators that ends at `pos`. -/
def leftmost_separator (str : List Char) : Nat → Nat
  | 0 => 0
  | pos + 1 => if is_separator (str.getD pos ' ') then leftmost_separator str pos else pos + 1

/-- The helper `is_root_separator`, for a separator at position `pos`. -/
def is_root_separator (str : List Char) (pos : Nat) : Bool :=
  let p := leftmost_separator str pos
  if p == 0 then true
  else if decide (p < 3) || !is_separator (str.getD 0 ' ') || !is_separator (str.getD 1 ' ') then false
  else find_first_separator str 2 == some p

/-- The member `path::filename`. -/
def path_filename (str : List Char) : List Char :=
  let pos := filename_pos str
  if str.length != 0 && pos != 0 && is_separator (str.getD pos ' ') && !is_root_separator str pos
  then ['.']
  else str.drop pos

/-- Position of the last `.` of `name`, if any (`rfind`). -/
def rfind_dot (name : List Char) : Option Nat :=
  (List.range name.length).reverse.find? (fun i => name.getD i ' ' == '.')

/-- The member `path::extension`: the part of the file name from its last dot
on, empty for the names `.` and `..` and for a name without a dot. -/
def path_extension (str : List Char) : List Char :=
  let name := path_filename str
  if name == ['.'] || name == ['.', '.'] then []
  else
    match rfind_dot name with
    | none => []
    | some pos => name.drop pos

/-- The member `path::replace_extension`: erase the existing extension, then
append the new one, preceded by a dot when it does not start with one. -/
def path_replace_extension (str new_extension : List Char) : List Char :=
  let erased := str.take (str.length - (path_extension str).length)
  match new_extension with
  | [] => erased
  | c :: rest => if c != '.' then erased ++ ['.'] ++ (c :: rest) else erased ++ (c :: rest)

/-- The operator `path / path`. -/
def path_append (lhs p : List Char) : List Char :=
  match p with
  | [] => lhs
  | c :: rest =>
    if !is_separator c && !lhs.isEmpty && !is_separator (lhs.getLastD ' ')
    then lhs ++ ['/'] ++ (c :: rest)
    else lhs ++ (c :: rest)

/-- The expression `path(in_filename).replace_extension("").filename().string()`
of the constructor. -/
def strip_name (in_filename : String) : String :=
  String.mk (path_filename (path_replace_extension in_filename.data []))

/-- The expression
`(path(record_root) / path(filename).replace_extension(ext)).string()`
used for each of the three output files. -/
def output_name (record_root filename ext : String) : String :=
  String.mk (path_append record_root.data (path_replace_extension filename.data ext.data))

/-- The OpenCV macro `CV_FOURCC` applied to the first four characters of the
codec string. -/
def fourcc (codec : String) : Nat :=
  let c := fun (i : Nat) => (codec.data.getD i (Char.ofNat 0)).toNat % 256
  c 0 + c 1 * 2 ^ 8 + c 2 * 2 ^ 16 + c 3 * 2 ^ 24

/-! ## The recorder -/

/-- The members of `RecorderOpenFace`, followed by what it has printed. -/
structure RecorderOpenFace where
  record_root : String
  filename : String
  csv_filename : String
  csv_recorder : RecorderCSV
  hog_recorder : RecorderHOG
  params : RecorderOpenFaceParameters
  observation_count : Nat
  timestamp : Double
  landmarks_2D : Mat_
  landmarks_3D : Mat_
  pdm_params_global : Vec6d
  pdm_params_local : Mat_
  landmark_detection_confidence : Double
  landmark_detection_success : Bool
  head_pose : Vec6d
  au_intensities : List (String × Double)
  au_occurences : List (String × Double)
  gaze_direction0 : Point3f
  gaze_direction1 : Point3f
  gaze_angle : Vec2d
  eye_landmarks : List Point2d
  video_writer : VideoWriter
  video_filename : String
  vis_to_out : Mat
  console : List Printed
  deriving DecidableEq, Repr

/-- What the file system answers to `CreateDirectory`: whether the directory
exists already and, if not, whether creating it succeeds. -/
structure DirectoryAnswer where
  pathExists : Bool
  created : Bool
  deriving DecidableEq, Repr

/-- The function `CreateDirectory`: the lines it prints. -/
def CreateDirectory (output_path : String) (fs : DirectoryAnswer) : List Printed :=
  if !fs.pathExists then
    if !fs.created then [Printed.failedToCreateDirectory output_path] else []
  else []

/-- The scalar members the constructor leaves without a value. -/
structure Uninitialised where
  timestamp : Double
  landmark_detection_confidence : Double
  landmark_detection_success : Bool
  deriving DecidableEq, Repr

/-- The constructor `RecorderOpenFace::RecorderOpenFace`. -/
def RecorderOpenFace.new (out_directory in_filename : String)
    (parameters : RecorderOpenFaceParameters) (fs : DirectoryAnswer) (u : Uninitialised) :
    RecorderOpenFace :=
  let filename := strip_name in_filename
  let record_root := out_directory
  let hog0 : RecorderHOG := ⟨false, [], none, []⟩
  { record_root := record_root
    filename := filename
    csv_filename := output_name record_root filename ".csv"
    csv_recorder := ⟨false, [], []⟩
    hog_recorder :=
      if parameters.outputHOG then hog0.Open (output_name record_root filename ".hog") else hog0
    params := parameters
    observation_count := 0
    timestamp := u.timestamp
    landmarks_2D := Mat_.default
    landmarks_3D := Mat_.default
    pdm_params_global := Vec6d.default
    pdm_params_local := Mat_.default
    landmark_detection_confidence := u.landmark_detection_confidence
    landmark_detection_success := u.landmark_detection_success
    head_pose := Vec6d.default
    au_intensities := []
    au_occurences := []
    gaze_direction0 := Point3f.default
    gaze_direction1 := Point3f.default
    gaze_angle := Vec2d.default
    eye_landmarks := []
    video_writer := ⟨false, [], []⟩
    video_filename :=
      if parameters.outputTrackedVideo then output_name record_root filename ".avi" else ""
    vis_to_out := Mat.default
    console := CreateDirectory record_root fs }

/-- The member `SetObservationVisualization`.  The argument `result` is how
the call of `video_writer.open` ends, should the function make one. -/
def SetObservationVisualization (s : RecorderOpenFace) (vis_track : Mat) (result : OpenResult) :
    RecorderOpenFace :=
  if s.params.outputTrackedVideo then
    let s1 :=
      if !s.video_writer.isOpened then
        let video_filename := output_name s.record_root s.filename ".avi"
        let output_codec := s.params.outputCodec
        let call : VideoOpenCall :=
          ⟨video_filename, fourcc output_codec, s.params.outputFps, vis_track.size, true, result⟩
        let s2 := { s with video_writer := s.video_writer.open call }
        if result = OpenResult.threw then
          { s2 with console := s2.console ++ [Printed.warnCouldNotOpenVideoWriter output_codec] }
        else s2
      else s
    { s1 with vis_to_out := vis_track }
  else s

/-- The comparison `operator<` of `std::string`, on the characters of the two
strings: the first position where they differ decides, and a proper beginning
of a string comes before the string. -/
def string_less : List Char → List Char → Bool
  | [], [] => false
  | [], _ :: _ => true
  | _ :: _, [] => false
  | a :: as, b :: bs =>
    if a.toNat < b.toNat then true
    else if b.toNat < a.toNat then false
    else string_less as bs

/-- The relation `std::sort` arranges its output by: `b` is not less than `a`
is required of every `a` placed before `b`. -/
def string_not_after (a b : String) : Prop := string_less b.data a.data = false

instance string_not_after_decidable : DecidableRel string_not_after :=
  fun a b => inferInstanceAs (Decidable (string_less b.data a.data = false))

/-- The call `std::sort(v.begin(), v.end())` on a vector of strings.  Strings
that compare equal are the same string, so every sorting procedure returns the
same vector; the model inserts the elements one by one. -/
def std_sort (v : List String) : List String := v.insertionSort string_not_after

/-- The argument list of `csv_recorder.Open` that `WriteObservation` works out
from the members on the first observation. -/
def csvOpenArgs (s : RecorderOpenFace) : CsvOpenArgs :=
  let num_face_landmarks := s.landmarks_2D.rows / 2
  let num_eye_landmarks := s.eye_landmarks.length
  let num_model_modes := s.pdm_params_local.rows / 2
  let au_names_class := std_sort (s.au_occurences.map (fun au => au.1))
  let au_names_reg := std_sort (s.au_intensities.map (fun au => au.1))
  { output_file_name := s.csv_filename
    output_2D_landmarks := s.params.output2DLandmarks
    output_3D_landmarks := s.params.output3DLandmarks
    output_model_params := s.params.outputPDMParams
    output_pose := s.params.outputPose
    output_AUs := s.params.outputAUs
    output_gaze := s.params.outputGaze
    num_face_landmarks := num_face_landmarks
    num_model_modes := num_model_modes
    num_eye_landmarks := num_eye_landmarks
    au_names_class := au_names_class
    au_names_reg := au_names_reg }

/-- The argument list of `csv_recorder.WriteLine` in `WriteObservation`. -/
def csvLine (s : RecorderOpenFace) : CsvLine :=
  { observation_count := s.observation_count
    time_stamp := s.timestamp
    landmark_detection_success := s.landmark_detection_success
    landmark_confidence := s.landmark_detection_confidence
    landmarks_2D := s.landmarks_2D
    landmarks_3D := s.landmarks_3D
    pdm_model_params := s.pdm_params_local
    rigid_shape_params := s.pdm_params_global
    pose_estimate := s.head_pose
    gazeDirection0 := s.gaze_direction0
    gazeDirection1 := s.gaze_direction1
    gaze_angle := s.gaze_angle
    eye_landmarks := s.eye_landmarks
    au_intensities := s.au_intensities
    au_occurences := s.au_occurences }

/-- The member `WriteObservation`. -/
def WriteObservation (s : RecorderOpenFace) : RecorderOpenFace :=
  let s1 := { s with observation_count := s.observation_count + 1 }
  let s2 :=
    if s1.observation_count = 1 then
      { s1 with csv_recorder := s1.csv_recorder.Open (csvOpenArgs s1) }
    else s1
  let s3 := { s2 with csv_recorder := s2.csv_recorder.WriteLine (csvLine s2) }
  let s4 :=
    if s3.params.outputHOG then { s3 with hog_recorder := s3.hog_recorder.Write } else s3
  if s4.params.outputTrackedVideo then
    let s5 :=
      if s4.vis_to_out.empty then { s4 with console := s4.console ++ [Printed.warnFrameNotSet] }
      else s4
    let s6 := { s5 with video_writer := s5.video_writer.write s5.vis_to_out }
    { s6 with vis_to_out := Mat.default }
  else s4

/-- The member `SetObservationHOG`. -/
def SetObservationHOG (s : RecorderOpenFace) (good_frame : Bool) (hog_descriptor : Mat_)
    (num_cols num_rows num_channels : Int) : RecorderOpenFace :=
  { s with hog_recorder :=
      s.hog_recorder.SetObservationHOG ⟨good_frame, hog_descriptor, num_cols, num_rows, num_channels⟩ }

/-- The member `SetObservationTimestamp`. -/
def SetObservationTimestamp (s : RecorderOpenFace) (timestamp : Double) : RecorderOpenFace :=
  { s with timestamp := timestamp }

/-- The member `SetObservationLandmarks`. -/
def SetObservationLandmarks (s : RecorderOpenFace) (landmarks_2D landmarks_3D : Mat_)
    (pdm_params_global : Vec6d) (pdm_params_local : Mat_) (confidence : Double) (success : Bool) :
    RecorderOpenFace :=
  { s with
    landmarks_2D := landmarks_2D
    landmarks_3D := landmarks_3D
    pdm_params_global := pdm_params_global
    pdm_params_local := pdm_params_local
    landmark_detection_confidence := confidence
    landmark_detection_success := success }

/-- The member `SetObservationPose`. -/
def SetObservationPose (s : RecorderOpenFace) (pose : Vec6d) : RecorderOpenFace :=
  { s with head_pose := pose }

/-- The member `SetObservationActionUnits`. -/
def SetObservationActionUnits (s : RecorderOpenFace)
    (au_intensities au_occurences : List (String × Double)) : RecorderOpenFace :=
  { s with au_intensities := au_intensities, au_occurences := au_occurences }

/-- The member `SetObservationGaze`. -/
def SetObservationGaze (s : RecorderOpenFace) (gaze_direction0 gaze_direction1 : Point3f)
    (gaze_angle : Vec2d) (eye_landmarks : List Point2d) : RecorderOpenFace :=
  { s with
    gaze_direction0 := gaze_direction0
    gaze_direction1 := gaze_direction1
    gaze_angle := gaze_angle
    eye_landmarks := eye_landmarks }

/-- The member `Close`. -/
def Close (s : RecorderOpenFace) : RecorderOpenFace :=
  { s with
    hog_recorder := s.hog_recorder.Close
    csv_recorder := s.csv_recorder.Close
    video_writer := s.video_writer.release }

/-- The destructor `RecorderOpenFace::~RecorderOpenFace`: it calls `Close`. -/
def destructor (s : RecorderOpenFace) : RecorderOpenFace := Close s

/-! ## Call sequences -/

/-- One call made by the capture loop on the recorder. -/
inductive Call where
  | setTimestamp (timestamp : Double)
  | setLandmarks (landmarks_2D landmarks_3D : Mat_) (pdm_params_global : Vec6d)
      (pdm_params_local : Mat_) (confidence : Double) (success : Bool)
  | setPose (pose : Vec6d)
  | setGaze (gaze_direction0 gaze_direction1 : Point3f) (gaze_angle : Vec2d)
      (eye_landmarks : List Point2d)
  | setActionUnits (au_intensities au_occurences : List (String × Double))
  | setHOG (good_frame : Bool) (hog_descriptor : Mat_) (num_cols num_rows num_channels : Int)
  | setVisualization (vis_track : Mat) (result : OpenResult)
  | writeObservation
  | close
  deriving DecidableEq, Repr

/-- The effect of one call. -/
def step (s : RecorderOpenFace) : Call → RecorderOpenFace
  | .setTimestamp t => SetObservationTimestamp s t
  | .setLandmarks l2 l3 g l c b => SetObservationLandmarks s l2 l3 g l c b
  | .setPose p => SetObservationPose s p
  | .setGaze g0 g1 a e => SetObservationGaze s g0 g1 a e
  | .setActionUnits i o => SetObservationActionUnits s i o
  | .setHOG g h c r n => SetObservationHOG s g h c r n
  | .setVisualization v r => SetObservationVisualization s v r
  | .writeObservation => WriteObservation s
  | .close => Close s

/-- The effect of a sequence of calls, first call first. -/
def run (s : RecorderOpenFace) (calls : List Call) : RecorderOpenFace :=
  calls.foldl step s

/-- Whether a call is a setter. -/
def Call.isSetter : Call → Bool
  | .writeObservation => false
  | .close => false
  | _ => true

/-- Whether a call is `WriteObservation`. -/
def Call.isWrite : Call → Bool
  | .writeObservation => true
  | _ => false

/-- Number of `WriteObservation` calls in a sequence. -/
def commits (calls : List Call) : Nat := calls.countP Call.isWrite

/-! ## Counting, for the statements about the video sink -/

/-- Number of commits, in a sequence of calls, that find a non-empty staged
image: the image most recently passed to `SetObservationVisualization` since
the previous commit.  The flag tells whether such an image is waiting when the
sequence starts.  This follows the wording of the specification, for
comparison with what the video writer receives. -/
def commitsWithImage : Bool → List Call → Nat
  | _, [] => 0
  | _, Call.setVisualization v _ :: cs => commitsWithImage (!v.empty) cs
  | staged, Call.writeObservation :: cs => (if staged then 1 else 0) + commitsWithImage false cs
  | staged, _ :: cs => commitsWithImage staged cs

/-- Number of non-empty images the video writer has received. -/
def imagesReceived (s : RecorderOpenFace) : Nat :=
  (s.video_writer.written.filter (fun m => !m.empty)).length

/-- Number of warnings printed about a video frame that was not set. -/
def frameWarnings (s : RecorderOpenFace) : Nat :=
  s.console.count Printed.warnFrameNotSet

/-- Number of warnings printed about a video writer that could not be opened. -/
def openWarnings (s : RecorderOpenFace) : Nat :=
  (s.console.filter (fun p => match p with
    | Printed.warnCouldNotOpenVideoWriter _ => true
    | _ => false)).length

/-- Whether a call is `SetObservationVisualization` whose `open`, if made,
throws. -/
def Call.isThrowingSetVisualization : Call → Bool
  | .setVisualization _ OpenResult.threw => true
  | _ => false

/-- Whether a call is `SetObservationVisualization` whose `open`, if made,
succeeds. -/
def Call.isOpeningSetVisualization : Call → Bool
  | .setVisualization _ OpenResult.opened => true
  | _ => false

/-! ## What the statements observe, and sample recorders -/

/-- What a setter is said to leave alone: the frame counter, the tabular
sink, the open state, open calls and records of the binary sink, and the
video writer (open state, open calls and images received). -/
def sinksUntouched (s t : RecorderOpenFace) : Prop :=
  t.observation_count = s.observation_count ∧
  t.csv_recorder = s.csv_recorder ∧
  t.hog_recorder.isOpen = s.hog_recorder.isOpen ∧
  t.hog_recorder.opened = s.hog_recorder.opened ∧
  t.hog_recorder.records = s.hog_recorder.records ∧
  t.video_writer = s.video_writer

instance sinksUntouched_decidable (s t : RecorderOpenFace) : Decidable (sinksUntouched s t) := by
  unfold sinksUntouched
  infer_instance

/-- Whether a call is `SetObservationVisualization`. -/
def Call.isSetVisualization : Call → Bool
  | .setVisualization _ _ => true
  | _ => false

/-- Parameters with every output switched on and codec `DIVX`. -/
def allOutputs : RecorderOpenFaceParameters :=
  { output2DLandmarks := true
    output3DLandmarks := true
    outputPDMParams := true
    outputPose := true
    outputAUs := true
    outputGaze := true
    outputHOG := true
    outputTrackedVideo := true
    outputCodec := "DIVX"
    outputFps := ⟨30⟩ }

/-- Parameters with only the tabular output: no HOG file, no video. -/
def tabularOnly : RecorderOpenFaceParameters :=
  { allOutputs with outputHOG := false, outputTrackedVideo := false }

/-- A freshly constructed recorder for input `dir/clip.mp4`, writing to `out`,
with every output switched on. -/
def sampleSession : RecorderOpenFace :=
  RecorderOpenFace.new "out" "dir/clip.mp4" allOutputs ⟨true, false⟩ ⟨⟨0⟩, ⟨0⟩, false⟩

/-- A freshly constructed recorder for input `dir/clip.mp4`, writing to `out`,
with only the tabular output. -/
def sampleTabularSession : RecorderOpenFace :=
  RecorderOpenFace.new "out" "dir/clip.mp4" tabularOnly ⟨true, false⟩ ⟨⟨0⟩, ⟨0⟩, false⟩

/-- A freshly constructed recorder for input `dir/clip.mp4`, writing to `out`,
with the tabular and the HOG output but no video. -/
def sampleHogSession : RecorderOpenFace :=
  RecorderOpenFace.new "out" "dir/clip.mp4" { allOutputs with outputTrackedVideo := false }
    ⟨true, false⟩ ⟨⟨0⟩, ⟨0⟩, false⟩

/-- A two by two image. -/
def sampleImage : Mat := ⟨2, 2, [10, 20, 30, 40]⟩

/-! ## Effect of a single call on the counter and on the sinks -/

theorem WriteObservation_params (s : RecorderOpenFace) :
    (WriteObservation s).params = s.params := by
  simp only [WriteObservation]
  split_ifs <;> rfl

theorem WriteObservation_count (s : RecorderOpenFace) :
    (WriteObservation s).observation_count = s.observation_count + 1 := by
  simp only [WriteObservation]
  split_ifs <;> rfl

theorem WriteObservation_lines (s : RecorderOpenFace) :
    (WriteObservation s).csv_recorder.lines =
      s.csv_recorder.lines ++ [csvLine { s with observation_count := s.observation_count + 1 }] := by
  simp only [WriteObservation]
  split_ifs <;> simp [RecorderCSV.WriteLine, RecorderCSV.Open, csvLine]

theorem WriteObservation_opened (s : RecorderOpenFace) :
    (WriteObservation s).csv_recorder.opened =
      if s.observation_count = 0
      then s.csv_recorder.opened ++ [csvOpenArgs { s with observation_count := 1 }]
      else s.csv_recorder.opened := by
  simp only [WriteObservation]
  split_ifs <;> simp_all [RecorderCSV.WriteLine, RecorderCSV.Open]

theorem WriteObservation_records (s : RecorderOpenFace) :
    (WriteObservation s).hog_recorder.records =
      if s.params.outputHOG then s.hog_recorder.records ++ [s.hog_recorder.staged]
      else s.hog_recorder.records := by
  simp only [WriteObservation]
  split_ifs <;> simp_all [RecorderHOG.Write]

theorem WriteObservation_written (s : RecorderOpenFace) :
    (WriteObservation s).video_writer.written =
      if s.params.outputTrackedVideo then s.video_writer.written ++ [s.vis_to_out]
      else s.video_writer.written := by
  simp only [WriteObservation]
  split_ifs <;> simp_all [VideoWriter.write]

theorem WriteObservation_openCalls (s : RecorderOpenFace) :
    (WriteObservation s).video_writer.openCalls = s.video_writer.openCalls ∧
      (WriteObservation s).video_writer.isOpened = s.video_writer.isOpened := by
  simp only [WriteObservation]
  split_ifs <;> simp [VideoWriter.write]

theorem WriteObservation_vis_to_out (s : RecorderOpenFace) :
    (WriteObservation s).vis_to_out =
      if s.params.outputTrackedVideo then Mat.default else s.vis_to_out := by
  simp only [WriteObservation]
  split_ifs <;> simp_all

theorem WriteObservation_console (s : RecorderOpenFace) :
    (WriteObservation s).console =
      if s.params.outputTrackedVideo && s.vis_to_out.empty
      then s.console ++ [Printed.warnFrameNotSet] else s.console := by
  simp only [WriteObservation]
  split_ifs <;> simp_all

theorem step_params (s : RecorderOpenFace) (c : Call) : (step s c).params = s.params := by
  cases c <;> simp only [step, SetObservationTimestamp, SetObservationLandmarks,
    SetObservationPose, SetObservationGaze, SetObservationActionUnits, SetObservationHOG, Close,
    WriteObservation_params]
  simp only [SetObservationVisualization]
  split_ifs <;> rfl

theorem run_params (calls : List Call) (s : RecorderOpenFace) :
    (run s calls).params = s.params := by
  induction calls generalizing s with
  | nil => rfl
  | cons c cs ih => simp only [run, List.foldl_cons] at ih ⊢; rw [ih, step_params]

theorem run_append (s : RecorderOpenFace) (xs ys : List Call) :
    run s (xs ++ ys) = run (run s xs) ys := by
  simp [run, List.foldl_append]

theorem run_cons (s : RecorderOpenFace) (c : Call) (cs : List Call) :
    run s (c :: cs) = run (step s c) cs := rfl

theorem char_eq_of_toNat_eq (x y : Char) (h : x.toNat = y.toNat) : x = y := by
  apply Char.ext
  apply UInt32.ext
  exact h

theorem string_less_iff_lt (a b : List Char) : string_less a b = true ↔ a < b := by
  induction a generalizing b with
  | nil =>
    cases b with
    | nil => simp [string_less]
    | cons y ys => simp only [string_less, true_iff]; exact List.Lex.nil
  | cons x xs ih =>
    cases b with
    | nil => simp only [string_less, Bool.false_eq_true, false_iff]; intro h; cases h
    | cons y ys =>
      simp only [string_less]
      by_cases h1 : x.toNat < y.toNat
      · simp only [h1, if_true, true_iff]; exact List.Lex.rel h1
      · by_cases h2 : y.toNat < x.toNat
        · simp only [h1, h2, if_false, if_true, Bool.false_eq_true, false_iff]
          intro h
          cases h with
          | cons h => exact absurd h2 (lt_irrefl _)
          | rel h => exact h1 h
        · simp only [h1, h2, if_false]
          have hxy : x = y := char_eq_of_toNat_eq x y (by omega)
          subst hxy
          rw [ih]
          constructor
          · intro h; exact List.Lex.cons h
          · intro h
            cases h with
            | cons h => exact h
            | rel h => exact absurd h h1

theorem string_not_after_iff_le (a b : String) : string_not_after a b ↔ a ≤ b := by
  unfold string_not_after
  rw [← not_lt, String.lt_iff_toList_lt, ← string_less_iff_lt]
  simp [String.toList]

theorem std_sort_sorted (v : List String) : (std_sort v).Sorted (fun a b => a ≤ b) := by
  have htotal : IsTotal String string_not_after :=
    ⟨fun a b => by simp only [string_not_after_iff_le]; exact le_total a b⟩
  have htrans : IsTrans String string_not_after :=
    ⟨fun a b c => by simp only [string_not_after_iff_le]; exact le_trans⟩
  have h := List.sorted_insertionSort string_not_after v
  exact h.imp (fun {a b} hab => (string_not_after_iff_le a b).1 hab)

theorem std_sort_perm (v : List String) : (std_sort v).Perm v :=
  List.perm_insertionSort string_not_after v
theorem WriteObservation_csv_isOpen (s : RecorderOpenFace) :
    (WriteObservation s).csv_recorder.isOpen =
      (s.csv_recorder.isOpen || decide (s.observation_count = 0)) := by
  simp only [WriteObservation]
  split_ifs <;> simp_all [RecorderCSV.WriteLine, RecorderCSV.Open]

theorem WriteObservation_hog (s : RecorderOpenFace) :
    (WriteObservation s).hog_recorder.isOpen = s.hog_recorder.isOpen ∧
      (WriteObservation s).hog_recorder.opened = s.hog_recorder.opened := by
  simp only [WriteObservation]
  split_ifs <;> simp [RecorderHOG.Write]

theorem SetObservationVisualization_frame (s : RecorderOpenFace) (v : Mat) (r : OpenResult) :
    (SetObservationVisualization s v r).observation_count = s.observation_count ∧
    (SetObservationVisualization s v r).csv_recorder = s.csv_recorder ∧
    (SetObservationVisualization s v r).hog_recorder = s.hog_recorder ∧
    (SetObservationVisualization s v r).video_writer.written = s.video_writer.written := by
  simp only [SetObservationVisualization]
  split_ifs <;> simp [VideoWriter.open]

theorem step_observation_count (s : RecorderOpenFace) (c : Call) :
    (step s c).observation_count = s.observation_count + (if c.isWrite then 1 else 0) := by
  cases c <;> simp [step, SetObservationTimestamp, SetObservationLandmarks,
    SetObservationPose, SetObservationGaze, SetObservationActionUnits, SetObservationHOG, Close,
    WriteObservation_count, Call.isWrite, (SetObservationVisualization_frame _ _ _).1]

theorem step_lines (s : RecorderOpenFace) (c : Call) :
    (step s c).csv_recorder.lines = s.csv_recorder.lines ++
      (if c.isWrite then [csvLine { s with observation_count := s.observation_count + 1 }]
       else []) := by
  cases c <;> simp [step, SetObservationTimestamp, SetObservationLandmarks,
    SetObservationPose, SetObservationGaze, SetObservationActionUnits, SetObservationHOG, Close,
    RecorderCSV.Close, WriteObservation_lines, Call.isWrite,
    (SetObservationVisualization_frame _ _ _).2.1]

theorem step_opened (s : RecorderOpenFace) (c : Call) :
    (step s c).csv_recorder.opened =
      if c.isWrite = true ∧ s.observation_count = 0
      then s.csv_recorder.opened ++ [csvOpenArgs { s with observation_count := 1 }]
      else s.csv_recorder.opened := by
  cases c <;> simp [step, SetObservationTimestamp, SetObservationLandmarks,
    SetObservationPose, SetObservationGaze, SetObservationActionUnits, SetObservationHOG, Close,
    RecorderCSV.Close, WriteObservation_opened, Call.isWrite,
    (SetObservationVisualization_frame _ _ _).2.1]

theorem step_csv_isOpen (s : RecorderOpenFace) (c : Call) (hc : c ≠ Call.close) :
    (step s c).csv_recorder.isOpen =
      (s.csv_recorder.isOpen || (c.isWrite && decide (s.observation_count = 0))) := by
  cases c <;> first
    | exact absurd rfl hc
    | simp [step, SetObservationTimestamp, SetObservationLandmarks,
        SetObservationPose, SetObservationGaze, SetObservationActionUnits, SetObservationHOG,
        WriteObservation_csv_isOpen, Call.isWrite, (SetObservationVisualization_frame _ _ _).2.1]

theorem step_hog_isOpen (s : RecorderOpenFace) (c : Call) (hc : c ≠ Call.close) :
    (step s c).hog_recorder.isOpen = s.hog_recorder.isOpen := by
  cases c <;> first
    | exact absurd rfl hc
    | simp [step, SetObservationTimestamp, SetObservationLandmarks,
        SetObservationPose, SetObservationGaze, SetObservationActionUnits, SetObservationHOG,
        RecorderHOG.SetObservationHOG, (WriteObservation_hog s).1,
        (SetObservationVisualization_frame _ _ _).2.2.1]

theorem step_records_length (s : RecorderOpenFace) (c : Call) :
    (step s c).hog_recorder.records.length = s.hog_recorder.records.length +
      (if c.isWrite && s.params.outputHOG then 1 else 0) := by
  cases c <;> try simp [step, SetObservationTimestamp, SetObservationLandmarks,
    SetObservationPose, SetObservationGaze, SetObservationActionUnits, SetObservationHOG, Close,
    RecorderHOG.Close, RecorderHOG.SetObservationHOG, WriteObservation_records, Call.isWrite,
    (SetObservationVisualization_frame _ _ _).2.2.1]
  split_ifs <;> simp

theorem commits_append (xs ys : List Call) : commits (xs ++ ys) = commits xs + commits ys := by
  simp [commits, List.countP_append]

theorem commits_singleton (c : Call) : commits [c] = if c.isWrite then 1 else 0 := by
  cases c <;> simp [commits, Call.isWrite, List.countP_cons]

theorem run_snoc (s : RecorderOpenFace) (cs : List Call) (c : Call) :
    run s (cs ++ [c]) = step (run s cs) c := by
  simp [run, List.foldl_append]

/-- Once the counter has left zero, no sequence of calls makes the recorder
call `Open` on the tabular sink again. -/
theorem run_opened_of_counted (calls : List Call) (s : RecorderOpenFace)
    (h : s.observation_count ≠ 0) :
    (run s calls).csv_recorder.opened = s.csv_recorder.opened := by
  induction calls generalizing s with
  | nil => rfl
  | cons c cs ih =>
    rw [run_cons, ih (step s c), step_opened]
    · simp [h]
    · rw [step_observation_count]; omega

/-- Calls other than `WriteObservation` leave the counter and the `Open` calls
of the tabular sink as they were. -/
theorem run_without_commit (calls : List Call) (s : RecorderOpenFace)
    (h : commits calls = 0) :
    (run s calls).observation_count = s.observation_count ∧
      (run s calls).csv_recorder.opened = s.csv_recorder.opened := by
  induction calls generalizing s with
  | nil => exact ⟨rfl, rfl⟩
  | cons c cs ih =>
    have hc : c.isWrite = false := by
      cases hw : c.isWrite
      · rfl
      · simp [commits, List.countP_cons, hw] at h
    have hcs : commits cs = 0 := by
      simpa [commits, List.countP_cons, hc] using h
    rw [run_cons]
    obtain ⟨h1, h2⟩ := ih (step s c) hcs
    rw [h1, h2, step_observation_count, step_opened]
    simp [hc]

/-! ## Setters (claim C6) -/

/-- C6, as stated, fails: on a fresh recorder with video output enabled,
`SetObservationVisualization` is a setter and yet it calls `open` on the video
writer, which afterwards is opened and has one open call on record. -/
theorem C6_setter_opens_video_writer :
    (Call.setVisualization sampleImage OpenResult.opened).isSetter = true ∧
    sampleSession.video_writer.isOpened = false ∧
    sampleSession.video_writer.openCalls.length = 0 ∧
    (step sampleSession (Call.setVisualization sampleImage OpenResult.opened)).video_writer.isOpened
      = true ∧
    (step sampleSession
      (Call.setVisualization sampleImage OpenResult.opened)).video_writer.openCalls.length = 1 ∧
    ¬ sinksUntouched sampleSession
      (step sampleSession (Call.setVisualization sampleImage OpenResult.opened)) := by
  decide

/-- C6, amended: every setter leaves the frame counter, the tabular sink, the
open state, open calls and records of the binary sink and the images received
by the video writer as they were.  Every setter other than
`SetObservationVisualization` leaves the whole video writer as it was, and so
does `SetObservationVisualization` when video output is disabled or the writer
is already opened; with video output enabled and the writer not opened it adds
exactly one open call. -/
theorem C6_setters_frame (s : RecorderOpenFace) (c : Call) (hc : c.isSetter = true) :
    (step s c).observation_count = s.observation_count ∧
    (step s c).csv_recorder = s.csv_recorder ∧
    (step s c).hog_recorder.isOpen = s.hog_recorder.isOpen ∧
    (step s c).hog_recorder.opened = s.hog_recorder.opened ∧
    (step s c).hog_recorder.records = s.hog_recorder.records ∧
    (step s c).video_writer.written = s.video_writer.written ∧
    (step s c).video_writer.openCalls.length = s.video_writer.openCalls.length +
      (if c.isSetVisualization && s.params.outputTrackedVideo && !s.video_writer.isOpened
       then 1 else 0) ∧
    ((c.isSetVisualization && s.params.outputTrackedVideo && !s.video_writer.isOpened) = false →
      sinksUntouched s (step s c)) := by
  cases c with
  | setVisualization v r =>
    simp only [step, SetObservationVisualization, sinksUntouched, Call.isSetVisualization]
    by_cases hv : s.params.outputTrackedVideo = true <;>
      by_cases ho : s.video_writer.isOpened = true <;>
      by_cases hr : r = OpenResult.threw <;>
      simp [hv, ho, hr, VideoWriter.open]
  | writeObservation => simp [Call.isSetter] at hc
  | close => simp [Call.isSetter] at hc
  | _ =>
    simp [step, sinksUntouched, Call.isSetVisualization, SetObservationTimestamp,
      SetObservationLandmarks, SetObservationPose, SetObservationGaze,
      SetObservationActionUnits, SetObservationHOG, RecorderHOG.SetObservationHOG]

/-- C6, amended, at a concrete call: staging a HOG block on a fresh recorder
touches neither the counter nor what the sinks have received. -/
theorem C6_setters_frame_witness :
    (Call.setHOG true Mat_.default 0 0 0).isSetter = true ∧
    sinksUntouched sampleSession (step sampleSession (Call.setHOG true Mat_.default 0 0 0)) :=
  ⟨rfl, (C6_setters_frame sampleSession (Call.setHOG true Mat_.default 0 0 0) rfl).2.2.2.2.2.2.2
    rfl⟩

/-! ## Close (claim C9) -/

/-- C9: `Close` applied twice gives the same recorder, sinks included, as
`Close` applied once, and so does the destructor run after an explicit
`Close`; a call of `Close` (the first or the second) adds no row, no record
and no image to any sink, and leaves all three sinks closed. -/
theorem C9_Close_idempotent (s : RecorderOpenFace) :
    Close (Close s) = Close s ∧
    destructor (Close s) = Close s ∧
    (Close (Close s)).csv_recorder.lines = (Close s).csv_recorder.lines ∧
    (Close (Close s)).hog_recorder.records = (Close s).hog_recorder.records ∧
    (Close (Close s)).video_writer.written = (Close s).video_writer.written ∧
    (Close s).csv_recorder.lines = s.csv_recorder.lines ∧
    (Close s).hog_recorder.records = s.hog_recorder.records ∧
    (Close s).video_writer.written = s.video_writer.written ∧
    (Close s).csv_recorder.isOpen = false ∧
    (Close s).hog_recorder.isOpen = false ∧
    (Close s).video_writer.isOpened = false := by
  simp [destructor, Close, RecorderCSV.Close, RecorderHOG.Close, VideoWriter.release]

/-! ## The buffer across a commit (claim C10) -/

/-- C10: `WriteObservation` leaves the timestamp, the success flag, the
confidence, the 2D and 3D landmarks, the local and global shape parameters,
the pose, both gaze directions, the gaze angle, the eye landmarks and both
detection lists as they were.  The staged visualisation image is the only
buffer member it assigns: with video output enabled it is the empty image
afterwards, otherwise it is unchanged. -/
theorem C10_commit_keeps_buffer (s : RecorderOpenFace) :
    ((WriteObservation s).vis_to_out =
      (if s.params.outputTrackedVideo then Mat.default else s.vis_to_out) ∧
     Mat.default.empty = true) ∧
    (WriteObservation s).timestamp = s.timestamp ∧
    (WriteObservation s).landmark_detection_success = s.landmark_detection_success ∧
    (WriteObservation s).landmark_detection_confidence = s.landmark_detection_confidence ∧
    (WriteObservation s).landmarks_2D = s.landmarks_2D ∧
    (WriteObservation s).landmarks_3D = s.landmarks_3D ∧
    (WriteObservation s).pdm_params_local = s.pdm_params_local ∧
    (WriteObservation s).pdm_params_global = s.pdm_params_global ∧
    (WriteObservation s).head_pose = s.head_pose ∧
    (WriteObservation s).gaze_direction0 = s.gaze_direction0 ∧
    (WriteObservation s).gaze_direction1 = s.gaze_direction1 ∧
    (WriteObservation s).gaze_angle = s.gaze_angle ∧
    (WriteObservation s).eye_landmarks = s.eye_landmarks ∧
    (WriteObservation s).au_occurences = s.au_occurences ∧
    (WriteObservation s).au_intensities = s.au_intensities := by
  refine ⟨⟨WriteObservation_vis_to_out s, by decide⟩, ?_⟩
  simp only [WriteObservation]
  split_ifs <;> simp

/-! ## Frame counter and rows (claim C1) -/

/-- C1: on a freshly constructed recorder, after any sequence of setter calls
and `N` calls of `WriteObservation`, in any interleaving, `observation_count`
is `N`, the tabular sink has received exactly `N` rows whose frame ordinals
are `1, 2, ..., N` in order, and, when HOG output is enabled, the binary sink
has received exactly `N` records.  The tabular sink is open from the first
commit on and the binary sink, when enabled, throughout, so the rows and
records reach open sinks. -/
theorem C1_counts_agree (out_directory in_filename : String)
    (parameters : RecorderOpenFaceParameters) (fs : DirectoryAnswer) (u : Uninitialised)
    (calls : List Call) (hcalls : ∀ c ∈ calls, c ≠ Call.close) :
    (run (RecorderOpenFace.new out_directory in_filename parameters fs u) calls).observation_count
      = commits calls ∧
    (run (RecorderOpenFace.new out_directory in_filename parameters fs u) calls).csv_recorder.lines.map
      (fun l => l.observation_count) = List.range' 1 (commits calls) ∧
    (run (RecorderOpenFace.new out_directory in_filename parameters fs u) calls).csv_recorder.lines.length
      = commits calls ∧
    (run (RecorderOpenFace.new out_directory in_filename parameters fs u) calls).csv_recorder.isOpen
      = decide (0 < commits calls) ∧
    (run (RecorderOpenFace.new out_directory in_filename parameters fs u) calls).hog_recorder.records.length
      = (if parameters.outputHOG then commits calls else 0) ∧
    (run (RecorderOpenFace.new out_directory in_filename parameters fs u) calls).hog_recorder.isOpen
      = parameters.outputHOG := by
  induction calls using List.reverseRecOn with
  | nil =>
    refine ⟨rfl, rfl, rfl, rfl, ?_, ?_⟩
    · cases h : parameters.outputHOG <;>
        simp [run, RecorderOpenFace.new, h, RecorderHOG.Open, commits]
    · cases h : parameters.outputHOG <;> simp [run, RecorderOpenFace.new, h, RecorderHOG.Open]
  | append_singleton cs c ih =>
    have hcs : ∀ c ∈ cs, c ≠ Call.close := fun x hx => hcalls x (by simp [hx])
    have hc : c ≠ Call.close := hcalls c (by simp)
    obtain ⟨h1, h2, h3, h4, h5, h6⟩ := ih hcs
    have hp := run_params cs (RecorderOpenFace.new out_directory in_filename parameters fs u)
    have hp2 : (RecorderOpenFace.new out_directory in_filename parameters fs u).params
        = parameters := rfl
    rw [hp2] at hp
    rw [run_snoc, commits_append, commits_singleton]
    refine ⟨?_, ?_, ?_, ?_, ?_, ?_⟩
    · rw [step_observation_count, h1]
    · rw [step_lines, List.map_append, h2, h1]
      cases hw : c.isWrite
      · simp
      · simp only [csvLine, if_true, List.map_cons, List.map_nil]
        rw [List.range'_concat, Nat.one_mul, Nat.add_comm 1 (commits cs)]
    · rw [step_lines, List.length_append, h3]
      cases hw : c.isWrite <;> simp
    · rw [step_csv_isOpen _ _ hc, h4, h1]
      cases hw : c.isWrite
      · simp
      · by_cases h0 : commits cs = 0 <;> simp [h0]
        omega
    · rw [step_records_length, h5, hp]
      cases hw : c.isWrite <;> cases hh : parameters.outputHOG <;> simp
    · rw [step_hog_isOpen _ _ hc, h6]

/-- C1 at the example of the specification: only the tabular output enabled,
three commits, no detections set; the rows carry the ordinals 1, 2, 3. -/
theorem C1_counts_agree_witness :
    (∀ c ∈ [Call.writeObservation, Call.setTimestamp ⟨7⟩, Call.writeObservation,
        Call.writeObservation], c ≠ Call.close) ∧
    (run sampleTabularSession [Call.writeObservation, Call.setTimestamp ⟨7⟩,
        Call.writeObservation, Call.writeObservation]).observation_count = 3 ∧
    (run sampleTabularSession [Call.writeObservation, Call.setTimestamp ⟨7⟩,
        Call.writeObservation, Call.writeObservation]).csv_recorder.lines.map
          (fun l => l.observation_count) = [1, 2, 3] :=
  ⟨by decide,
   (C1_counts_agree "out" "dir/clip.mp4" tabularOnly ⟨true, false⟩ ⟨⟨0⟩, ⟨0⟩, false⟩
      [Call.writeObservation, Call.setTimestamp ⟨7⟩, Call.writeObservation,
        Call.writeObservation] (by decide)).1,
   (C1_counts_agree "out" "dir/clip.mp4" tabularOnly ⟨true, false⟩ ⟨⟨0⟩, ⟨0⟩, false⟩
      [Call.writeObservation, Call.setTimestamp ⟨7⟩, Call.writeObservation,
        Call.writeObservation] (by decide)).2.1⟩

/-! ## The schema handed to the tabular sink (claims C2 and C3) -/

/-- C2: take any calls `before` without a commit, then the first
`WriteObservation`, then any calls `later`.  On a freshly constructed recorder
the tabular sink receives exactly one `Open` call, made by that first commit.
Its landmark count is half the row count of `landmarks_2D`, its model-mode
count half the row count of `pdm_params_local` and its eye-landmark count the
length of `eye_landmarks`, all read from the members as the calls `before`
left them.  The calls `later`, whatever landmarks they set and however often
they commit, add no further `Open` call. -/
theorem C2_schema_opened_once (out_directory in_filename : String)
    (parameters : RecorderOpenFaceParameters) (fs : DirectoryAnswer) (u : Uninitialised)
    (before later : List Call) (hbefore : commits before = 0) :
    ∃ a : CsvOpenArgs,
      (run (RecorderOpenFace.new out_directory in_filename parameters fs u)
        (before ++ Call.writeObservation :: later)).csv_recorder.opened = [a] ∧
      (run (RecorderOpenFace.new out_directory in_filename parameters fs u)
        (before ++ [Call.writeObservation])).csv_recorder.opened = [a] ∧
      (run (RecorderOpenFace.new out_directory in_filename parameters fs u)
        before).csv_recorder.opened = [] ∧
      a.num_face_landmarks =
        (run (RecorderOpenFace.new out_directory in_filename parameters fs u)
          before).landmarks_2D.rows / 2 ∧
      a.num_model_modes =
        (run (RecorderOpenFace.new out_directory in_filename parameters fs u)
          before).pdm_params_local.rows / 2 ∧
      a.num_eye_landmarks =
        (run (RecorderOpenFace.new out_directory in_filename parameters fs u)
          before).eye_landmarks.length := by
  obtain ⟨hcount, hopened⟩ :=
    run_without_commit before (RecorderOpenFace.new out_directory in_filename parameters fs u)
      hbefore
  have hcount0 : (run (RecorderOpenFace.new out_directory in_filename parameters fs u)
      before).observation_count = 0 := hcount
  have hopened0 : (run (RecorderOpenFace.new out_directory in_filename parameters fs u)
      before).csv_recorder.opened = [] := hopened
  have hfirst : (run (RecorderOpenFace.new out_directory in_filename parameters fs u)
      (before ++ [Call.writeObservation])).csv_recorder.opened =
      [csvOpenArgs { run (RecorderOpenFace.new out_directory in_filename parameters fs u) before
        with observation_count := 1 }] := by
    rw [run_snoc, step_opened, hopened0]
    simp [Call.isWrite, hcount0]
  refine ⟨_, ?_, hfirst, hopened0, rfl, rfl, rfl⟩
  have hsplit : before ++ Call.writeObservation :: later
      = (before ++ [Call.writeObservation]) ++ later := by simp
  rw [hsplit, run_append, run_opened_of_counted later _ ?_, hfirst]
  rw [run_snoc, step_observation_count]
  simp [Call.isWrite]

/-- C2 at a concrete run: 68 landmarks (136 rows) are set before the first
commit and 5 landmarks (10 rows) before the second; the only `Open` call
carries landmark count 68. -/
theorem C2_schema_opened_once_witness :
    commits [Call.setLandmarks ⟨136, 1, []⟩ Mat_.default Vec6d.default ⟨6, 1, []⟩ ⟨0⟩ true] = 0 ∧
    ∃ a : CsvOpenArgs,
      (run sampleTabularSession
        ([Call.setLandmarks ⟨136, 1, []⟩ Mat_.default Vec6d.default ⟨6, 1, []⟩ ⟨0⟩ true] ++
          Call.writeObservation ::
          [Call.setLandmarks ⟨10, 1, []⟩ Mat_.default Vec6d.default ⟨2, 1, []⟩ ⟨0⟩ true,
           Call.writeObservation])).csv_recorder.opened = [a] ∧
      a.num_face_landmarks = 68 ∧ a.num_model_modes = 3 ∧ a.num_eye_landmarks = 0 := by
  refine ⟨by decide, ?_⟩
  obtain ⟨a, h1, _, _, h4, h5, h6⟩ :=
    C2_schema_opened_once "out" "dir/clip.mp4" tabularOnly ⟨true, false⟩ ⟨⟨0⟩, ⟨0⟩, false⟩
      [Call.setLandmarks ⟨136, 1, []⟩ Mat_.default Vec6d.default ⟨6, 1, []⟩ ⟨0⟩ true]
      [Call.setLandmarks ⟨10, 1, []⟩ Mat_.default Vec6d.default ⟨2, 1, []⟩ ⟨0⟩ true,
       Call.writeObservation] (by decide)
  exact ⟨a, h1, h4, h5, h6⟩

/-- C3: whatever two detection lists `SetObservationActionUnits` stores, in
whatever order their entries come, the first commit hands the tabular sink an
`Open` call whose categorical name list and whose intensity name list are each
in ascending lexicographic order and each a permutation of the names (first
components, duplicates kept) of the stored occurrence list and intensity list
respectively. -/
theorem C3_detection_names_sorted (s : RecorderOpenFace)
    (au_intensities au_occurences : List (String × Double)) (hfirst : s.observation_count = 0) :
    ∃ a : CsvOpenArgs,
      (WriteObservation (SetObservationActionUnits s au_intensities au_occurences)).csv_recorder.opened
        = s.csv_recorder.opened ++ [a] ∧
      a.au_names_class.Sorted (fun x y => x ≤ y) ∧
      a.au_names_class.Perm (au_occurences.map Prod.fst) ∧
      a.au_names_reg.Sorted (fun x y => x ≤ y) ∧
      a.au_names_reg.Perm (au_intensities.map Prod.fst) := by
  refine ⟨csvOpenArgs { SetObservationActionUnits s au_intensities au_occurences with
    observation_count := 1 }, ?_, ?_, ?_, ?_, ?_⟩
  · rw [WriteObservation_opened]
    simp [SetObservationActionUnits, hfirst]
  · exact std_sort_sorted _
  · exact std_sort_perm _
  · exact std_sort_sorted _
  · exact std_sort_perm _

/-- C3 at a concrete pair of lists, given out of order and with a repeated
name: the names reach the sink sorted, the repeated one twice. -/
theorem C3_detection_names_sorted_witness :
    sampleSession.observation_count = 0 ∧
    ∃ a : CsvOpenArgs,
      (WriteObservation (SetObservationActionUnits sampleSession
        [("AU12", ⟨1⟩), ("AU01", ⟨2⟩)]
        [("AU45", ⟨1⟩), ("AU04", ⟨0⟩), ("AU45", ⟨0⟩)])).csv_recorder.opened
        = sampleSession.csv_recorder.opened ++ [a] ∧
      a.au_names_class.Sorted (fun x y => x ≤ y) ∧
      a.au_names_class.Perm ([("AU45", (⟨1⟩ : Double)), ("AU04", ⟨0⟩), ("AU45", ⟨0⟩)].map Prod.fst) ∧
      a.au_names_reg.Sorted (fun x y => x ≤ y) ∧
      a.au_names_reg.Perm ([("AU12", (⟨1⟩ : Double)), ("AU01", ⟨2⟩)].map Prod.fst) :=
  ⟨by decide, C3_detection_names_sorted sampleSession [("AU12", ⟨1⟩), ("AU01", ⟨2⟩)]
    [("AU45", ⟨1⟩), ("AU04", ⟨0⟩), ("AU45", ⟨0⟩)] (by decide)⟩

/-- The names of the concrete run above, as the sink receives them. -/
theorem detection_names_example :
    (csvOpenArgs (SetObservationActionUnits sampleSession
        [("AU12", ⟨1⟩), ("AU01", ⟨2⟩)]
        [("AU45", ⟨1⟩), ("AU04", ⟨0⟩), ("AU45", ⟨0⟩)])).au_names_class = ["AU04", "AU45", "AU45"] ∧
    (csvOpenArgs (SetObservationActionUnits sampleSession
        [("AU12", ⟨1⟩), ("AU01", ⟨2⟩)]
        [("AU45", ⟨1⟩), ("AU04", ⟨0⟩), ("AU45", ⟨0⟩)])).au_names_reg = ["AU01", "AU12"] := by
  decide

/-! ## The video sink across commits (claim C4) -/

theorem SetObservationVisualization_video (s : RecorderOpenFace) (v : Mat) (r : OpenResult)
    (hv : s.params.outputTrackedVideo = true) :
    (SetObservationVisualization s v r).vis_to_out = v ∧
    frameWarnings (SetObservationVisualization s v r) = frameWarnings s := by
  simp only [SetObservationVisualization, frameWarnings]
  split_ifs <;> simp_all [List.count_append, List.count_cons]

theorem WriteObservation_frameWarnings (s : RecorderOpenFace) :
    frameWarnings (WriteObservation s) = frameWarnings s +
      (if s.params.outputTrackedVideo && s.vis_to_out.empty then 1 else 0) := by
  simp only [frameWarnings, WriteObservation_console]
  split_ifs <;> simp [List.count_append]

theorem Close_video (s : RecorderOpenFace) :
    (Close s).vis_to_out = s.vis_to_out ∧
    (Close s).video_writer.written = s.video_writer.written ∧
    (Close s).video_writer.openCalls = s.video_writer.openCalls ∧
    (Close s).console = s.console := by
  simp [Close, VideoWriter.release]

theorem commits_cons (c : Call) (cs : List Call) :
    commits (c :: cs) = (if c.isWrite then 1 else 0) + commits cs := by
  cases hw : c.isWrite
  · simp [commits, List.countP_cons, hw]
  · simp [commits, List.countP_cons, hw]
    omega

/-- With video output enabled: what one call adds to the images received by
the video writer (`m` images, `k` of them non-empty) and to the warnings about
frames not set, and what it leaves staged. -/
theorem step_video (s : RecorderOpenFace) (c : Call) (cs : List Call)
    (hv : s.params.outputTrackedVideo = true) :
    ∃ m k : Nat, ∃ b : Bool,
      (step s c).video_writer.written.length = s.video_writer.written.length + m ∧
      imagesReceived (step s c) = imagesReceived s + k ∧
      (!(step s c).vis_to_out.empty) = b ∧
      frameWarnings (step s c) + k = frameWarnings s + m ∧
      commitsWithImage (!s.vis_to_out.empty) (c :: cs) = k + commitsWithImage b cs ∧
      commits (c :: cs) = m + commits cs := by
  cases c with
  | setVisualization v r =>
    obtain ⟨e1, e2⟩ := SetObservationVisualization_video s v r hv
    have e3 := (SetObservationVisualization_frame s v r).2.2.2
    refine ⟨0, 0, !v.empty, ?_, ?_, ?_, ?_, ?_, ?_⟩
    · simp only [step, e3, Nat.add_zero]
    · simp only [step, imagesReceived, e3, Nat.add_zero]
    · simp only [step, e1]
    · simp only [step, e2]
    · simp only [commitsWithImage, Nat.zero_add]
    · simp [commits_cons, Call.isWrite]
  | writeObservation =>
    have w1 := WriteObservation_written s
    have w2 := WriteObservation_vis_to_out s
    have w3 := WriteObservation_frameWarnings s
    simp only [hv, if_true, Bool.true_and] at w1 w2 w3
    have hd : Mat.default.empty = true := by decide
    refine ⟨1, if s.vis_to_out.empty then 0 else 1, false, ?_, ?_, ?_, ?_, ?_, ?_⟩
    · simp only [step, w1, List.length_append, List.length_singleton]
    · simp only [step, imagesReceived, w1, List.filter_append, List.length_append]
      cases he : s.vis_to_out.empty <;> simp [he]
    · simp only [step, w2, hd, Bool.not_true]
    · simp only [step, w3]
      cases he : s.vis_to_out.empty <;> simp
    · simp only [commitsWithImage]
      cases he : s.vis_to_out.empty <;> simp
    · simp [commits_cons, Call.isWrite]
  | close =>
    obtain ⟨e1, e2, _, e4⟩ := Close_video s
    refine ⟨0, 0, !s.vis_to_out.empty, ?_, ?_, ?_, ?_, ?_, ?_⟩
    · simp only [step, e2, Nat.add_zero]
    · simp only [step, imagesReceived, e2, Nat.add_zero]
    · simp only [step, e1]
    · simp only [step, frameWarnings, e4]
    · simp only [commitsWithImage, Nat.zero_add]
    · simp [commits_cons, Call.isWrite]
  | setTimestamp _ | setLandmarks _ _ _ _ _ _ | setPose _ | setGaze _ _ _ _
  | setActionUnits _ _ | setHOG _ _ _ _ _ =>
    refine ⟨0, 0, !s.vis_to_out.empty, ?_, ?_, ?_, ?_, ?_, ?_⟩ <;>
      simp [step, imagesReceived, frameWarnings, commitsWithImage, commits_cons, Call.isWrite,
        SetObservationTimestamp, SetObservationLandmarks, SetObservationPose,
        SetObservationGaze, SetObservationActionUnits, SetObservationHOG]

/-- With video output enabled: what a sequence of calls adds to the images
received by the video writer and to the warnings about frames not set. -/
theorem run_video (calls : List Call) (s : RecorderOpenFace)
    (hv : s.params.outputTrackedVideo = true) :
    (run s calls).video_writer.written.length = s.video_writer.written.length + commits calls ∧
    imagesReceived (run s calls) =
      imagesReceived s + commitsWithImage (!s.vis_to_out.empty) calls ∧
    frameWarnings (run s calls) + commitsWithImage (!s.vis_to_out.empty) calls =
      frameWarnings s + commits calls := by
  induction calls generalizing s with
  | nil => simp [run, commits, commitsWithImage]
  | cons c cs ih =>
    have hv2 : (step s c).params.outputTrackedVideo = true := by rw [step_params]; exact hv
    obtain ⟨i1, i2, i3⟩ := ih (step s c) hv2
    obtain ⟨m, k, b, e1, e2, e3, e4, e5, e6⟩ := step_video s c cs hv
    rw [e3] at i2 i3
    rw [run_cons, e5, e6]
    refine ⟨by omega, by omega, by omega⟩

theorem commitsWithImage_le (calls : List Call) (staged : Bool) :
    commitsWithImage staged calls ≤ commits calls := by
  induction calls generalizing staged with
  | nil => simp [commitsWithImage, commits]
  | cons c cs ih =>
    rw [commits_cons]
    cases c with
    | setVisualization v r =>
      have := ih (!v.empty)
      simp only [commitsWithImage, Call.isWrite]
      omega
    | writeObservation =>
      have := ih false
      simp only [commitsWithImage, Call.isWrite]
      split_ifs <;> simp <;> omega
    | close | setTimestamp _ | setLandmarks _ _ _ _ _ _ | setPose _ | setGaze _ _ _ _
    | setActionUnits _ _ | setHOG _ _ _ _ _ =>
      have := ih staged
      simp only [commitsWithImage, Call.isWrite]
      omega

/-- C4, as stated, fails: with video output enabled and the writer opened,
`SetObservationVisualization`, `WriteObservation`, `WriteObservation` hands the
video writer two images, not one.  The second commit finds no staged image,
prints its warning and still calls `write`, passing the empty image. -/
theorem C4_write_not_skipped :
    (run sampleSession [Call.setVisualization sampleImage OpenResult.opened,
      Call.writeObservation]).video_writer.isOpened = true ∧
    (run sampleSession [Call.setVisualization sampleImage OpenResult.opened,
      Call.writeObservation]).vis_to_out.empty = true ∧
    commitsWithImage false [Call.setVisualization sampleImage OpenResult.opened,
      Call.writeObservation, Call.writeObservation] = 1 ∧
    (run sampleSession [Call.setVisualization sampleImage OpenResult.opened,
      Call.writeObservation, Call.writeObservation]).video_writer.written
      = [sampleImage, Mat.default] ∧
    (run sampleSession [Call.setVisualization sampleImage OpenResult.opened,
      Call.writeObservation, Call.writeObservation]).video_writer.written.length ≠ 1 ∧
    frameWarnings (run sampleSession [Call.setVisualization sampleImage OpenResult.opened,
      Call.writeObservation, Call.writeObservation]) = 1 := by
  decide

/-- C4, amended: with video output enabled, after any sequence of calls the
video writer has received one more image per commit (a commit that finds no
staged image prints a warning and passes the empty image, it does not skip the
call), the non-empty images it has received have grown by the number of
commits that found a non-empty staged image, and the warnings about a frame
not set by the number of the other commits.  So the non-empty images received
are at most as many as the commits. -/
theorem C4_video_frames (s : RecorderOpenFace) (calls : List Call)
    (hv : s.params.outputTrackedVideo = true) :
    (run s calls).video_writer.written.length = s.video_writer.written.length + commits calls ∧
    imagesReceived (run s calls) =
      imagesReceived s + commitsWithImage (!s.vis_to_out.empty) calls ∧
    frameWarnings (run s calls) + commitsWithImage (!s.vis_to_out.empty) calls =
      frameWarnings s + commits calls ∧
    imagesReceived (run s calls) ≤ imagesReceived s + commits calls := by
  obtain ⟨h1, h2, h3⟩ := run_video calls s hv
  refine ⟨h1, h2, h3, ?_⟩
  have := commitsWithImage_le calls (!s.vis_to_out.empty)
  omega

/-- C4, amended, at the example of the specification: images supplied on
commits 1 and 3 of 3.  The writer receives three images, two of them
non-empty, and one warning is printed. -/
theorem C4_video_frames_witness :
    sampleSession.params.outputTrackedVideo = true ∧
    (run sampleSession [Call.setVisualization sampleImage OpenResult.opened,
      Call.writeObservation, Call.writeObservation,
      Call.setVisualization sampleImage OpenResult.opened,
      Call.writeObservation]).video_writer.written.length
      = sampleSession.video_writer.written.length + 3 ∧
    imagesReceived (run sampleSession [Call.setVisualization sampleImage OpenResult.opened,
      Call.writeObservation, Call.writeObservation,
      Call.setVisualization sampleImage OpenResult.opened,
      Call.writeObservation]) = imagesReceived sampleSession + 2 ∧
    frameWarnings (run sampleSession [Call.setVisualization sampleImage OpenResult.opened,
      Call.writeObservation, Call.writeObservation,
      Call.setVisualization sampleImage OpenResult.opened,
      Call.writeObservation]) + 2 = frameWarnings sampleSession + 3 :=
  ⟨by decide,
   (C4_video_frames sampleSession [Call.setVisualization sampleImage OpenResult.opened,
      Call.writeObservation, Call.writeObservation,
      Call.setVisualization sampleImage OpenResult.opened,
      Call.writeObservation] (by decide)).1,
   (C4_video_frames sampleSession [Call.setVisualization sampleImage OpenResult.opened,
      Call.writeObservation, Call.writeObservation,
      Call.setVisualization sampleImage OpenResult.opened,
      Call.writeObservation] (by decide)).2.1,
   (C4_video_frames sampleSession [Call.setVisualization sampleImage OpenResult.opened,
      Call.writeObservation, Call.writeObservation,
      Call.setVisualization sampleImage OpenResult.opened,
      Call.writeObservation] (by decide)).2.2.1⟩

/-! ## Commit after Close (claim C5) -/

/-- C5, as stated, fails: a recorder (tabular and HOG output) that has
committed one frame and was then closed accepts a further `WriteObservation`.
The counter goes from 1 to 2, the tabular sink receives a second row, with
ordinal 2, the binary sink a second record, and nothing is printed. -/
theorem C5_closed_recorder_accepts_commit :
    (run sampleHogSession [Call.writeObservation, Call.close]).observation_count = 1 ∧
    (run sampleHogSession [Call.writeObservation, Call.close]).csv_recorder.isOpen = false ∧
    (run sampleHogSession [Call.writeObservation, Call.close]).hog_recorder.isOpen = false ∧
    (run sampleHogSession [Call.writeObservation, Call.close]).csv_recorder.lines.length = 1 ∧
    (run sampleHogSession [Call.writeObservation, Call.close]).hog_recorder.records.length = 1 ∧
    (WriteObservation
      (run sampleHogSession [Call.writeObservation, Call.close])).observation_count = 2 ∧
    (WriteObservation
      (run sampleHogSession [Call.writeObservation, Call.close])).csv_recorder.lines.map
        (fun l => l.observation_count) = [1, 2] ∧
    (WriteObservation
      (run sampleHogSession [Call.writeObservation, Call.close])).hog_recorder.records.length
        = 2 ∧
    (WriteObservation
      (run sampleHogSession [Call.writeObservation, Call.close])).console = [] := by
  decide

/-- C5, amended: `WriteObservation` is not rejected after `Close` and reports
no error of its own.  On a closed recorder, after any further calls, it
increments the frame counter by one, hands the tabular sink one row carrying
the new ordinal, hands the binary sink one record when HOG output is enabled
and the video writer one image when video output is enabled, and prints
nothing but the warning about a frame not set, exactly as before `Close`. -/
theorem C5_commit_after_close (s : RecorderOpenFace) (calls : List Call) :
    (WriteObservation (run (Close s) calls)).observation_count
      = (run (Close s) calls).observation_count + 1 ∧
    (WriteObservation (run (Close s) calls)).csv_recorder.lines.map (fun l => l.observation_count)
      = (run (Close s) calls).csv_recorder.lines.map (fun l => l.observation_count)
        ++ [(run (Close s) calls).observation_count + 1] ∧
    (WriteObservation (run (Close s) calls)).hog_recorder.records.length
      = (run (Close s) calls).hog_recorder.records.length +
        (if s.params.outputHOG then 1 else 0) ∧
    (WriteObservation (run (Close s) calls)).video_writer.written.length
      = (run (Close s) calls).video_writer.written.length +
        (if s.params.outputTrackedVideo then 1 else 0) ∧
    (WriteObservation (run (Close s) calls)).console
      = (if s.params.outputTrackedVideo && (run (Close s) calls).vis_to_out.empty
         then (run (Close s) calls).console ++ [Printed.warnFrameNotSet]
         else (run (Close s) calls).console) := by
  have hp : (run (Close s) calls).params = s.params := by
    rw [run_params]; rfl
  refine ⟨WriteObservation_count _, ?_, ?_, ?_, ?_⟩
  · rw [WriteObservation_lines]
    simp [csvLine]
  · rw [WriteObservation_records, hp]
    split_ifs <;> simp
  · rw [WriteObservation_written, hp]
    split_ifs <;> simp
  · rw [WriteObservation_console, hp]

/-! ## A video writer that fails to open (claim C7) -/

theorem openWarnings_append (s : RecorderOpenFace) (p : Printed) (t : RecorderOpenFace)
    (h : t.console = s.console ++ [p]) :
    openWarnings t = openWarnings s +
      (match p with
       | Printed.warnCouldNotOpenVideoWriter _ => 1
       | _ => 0) := by
  simp only [openWarnings, h, List.filter_append, List.length_append]
  cases p <;> simp

/-- With video output enabled and the writer not opened: one call whose
`open`, if made, does not succeed leaves the writer not opened, adds one open
call exactly when it is `SetObservationVisualization`, and one warning exactly
when that `open` throws. -/
theorem step_unopened (s : RecorderOpenFace) (c : Call)
    (hv : s.params.outputTrackedVideo = true) (ho : s.video_writer.isOpened = false)
    (hc : c.isOpeningSetVisualization = false) :
    (step s c).video_writer.isOpened = false ∧
    (step s c).video_writer.openCalls.length =
      s.video_writer.openCalls.length + (if c.isSetVisualization then 1 else 0) ∧
    openWarnings (step s c) =
      openWarnings s + (if c.isThrowingSetVisualization then 1 else 0) := by
  cases c with
  | setVisualization v r =>
    cases r with
    | opened => simp [Call.isOpeningSetVisualization] at hc
    | failed =>
      simp [step, SetObservationVisualization, hv, ho, VideoWriter.open, openWarnings,
        Call.isSetVisualization, Call.isThrowingSetVisualization]
    | threw =>
      simp [step, SetObservationVisualization, hv, ho, VideoWriter.open, openWarnings,
        Call.isSetVisualization, Call.isThrowingSetVisualization, List.filter_append]
  | writeObservation =>
    obtain ⟨w1, w2⟩ := WriteObservation_openCalls s
    have w3 := WriteObservation_console s
    refine ⟨by simp only [step, w2, ho], by simp [step, w1, Call.isSetVisualization], ?_⟩
    simp only [step, Call.isThrowingSetVisualization]
    by_cases he : (s.params.outputTrackedVideo && s.vis_to_out.empty) = true
    · rw [if_pos he] at w3
      rw [openWarnings_append s _ _ w3]
      simp
    · rw [if_neg he] at w3
      simp [openWarnings, w3]
  | close =>
    simp [step, Close, VideoWriter.release, openWarnings, Call.isSetVisualization,
      Call.isThrowingSetVisualization]
  | setTimestamp _ | setLandmarks _ _ _ _ _ _ | setPose _ | setGaze _ _ _ _
  | setActionUnits _ _ | setHOG _ _ _ _ _ =>
    simp [step, ho, openWarnings, Call.isSetVisualization, Call.isThrowingSetVisualization,
      SetObservationTimestamp, SetObservationLandmarks, SetObservationPose,
      SetObservationGaze, SetObservationActionUnits, SetObservationHOG]

/-- The same, for a sequence of calls. -/
theorem run_unopened (calls : List Call) (s : RecorderOpenFace)
    (hv : s.params.outputTrackedVideo = true) (ho : s.video_writer.isOpened = false)
    (hc : ∀ c ∈ calls, c.isOpeningSetVisualization = false) :
    (run s calls).video_writer.isOpened = false ∧
    (run s calls).video_writer.openCalls.length =
      s.video_writer.openCalls.length + calls.countP Call.isSetVisualization ∧
    openWarnings (run s calls) =
      openWarnings s + calls.countP Call.isThrowingSetVisualization := by
  induction calls generalizing s with
  | nil => simp [run, ho]
  | cons c cs ih =>
    obtain ⟨e1, e2, e3⟩ := step_unopened s c hv ho (hc c (by simp))
    have hv2 : (step s c).params.outputTrackedVideo = true := by rw [step_params]; exact hv
    obtain ⟨i1, i2, i3⟩ := ih (step s c) hv2 e1 (fun x hx => hc x (by simp [hx]))
    rw [run_cons, i2, i3, e2, e3, List.countP_cons, List.countP_cons]
    exact ⟨i1, by omega, by omega⟩

/-- C7, as stated, fails: with video output enabled, the first
`SetObservationVisualization` tries to open the writer and the attempt throws;
it is caught and a warning is printed.  The next
`SetObservationVisualization`, one commit later, tries again: two open calls
are on record, and two warnings. -/
theorem C7_open_attempted_again :
    (run sampleSession
      [Call.setVisualization sampleImage OpenResult.threw]).video_writer.isOpened = false ∧
    (run sampleSession
      [Call.setVisualization sampleImage OpenResult.threw]).video_writer.openCalls.length = 1 ∧
    (run sampleSession
      [Call.setVisualization sampleImage OpenResult.threw]).console
        = [Printed.warnCouldNotOpenVideoWriter "DIVX"] ∧
    (run sampleSession
      [Call.setVisualization sampleImage OpenResult.threw, Call.writeObservation,
       Call.setVisualization sampleImage OpenResult.threw]).video_writer.openCalls.length = 2 ∧
    (run sampleSession
      [Call.setVisualization sampleImage OpenResult.threw, Call.writeObservation,
       Call.setVisualization sampleImage OpenResult.threw]).console
        = [Printed.warnCouldNotOpenVideoWriter "DIVX",
           Printed.warnCouldNotOpenVideoWriter "DIVX"] := by
  decide

/-- C7, amended: with video output enabled and the writer not opened (as after
a failed attempt), take any sequence of calls in which no attempt to open the
writer succeeds.  The writer stays not opened; every
`SetObservationVisualization` call of the sequence makes one further attempt
to open it and no other call makes any; every attempt that throws is caught
and reported by one warning. -/
theorem C7_failed_open_retried (s : RecorderOpenFace) (calls : List Call)
    (hv : s.params.outputTrackedVideo = true) (ho : s.video_writer.isOpened = false)
    (hc : ∀ c ∈ calls, c.isOpeningSetVisualization = false) :
    (run s calls).video_writer.isOpened = false ∧
    (run s calls).video_writer.openCalls.length =
      s.video_writer.openCalls.length + calls.countP Call.isSetVisualization ∧
    openWarnings (run s calls) =
      openWarnings s + calls.countP Call.isThrowingSetVisualization :=
  run_unopened calls s hv ho hc

/-- C7, amended, at a concrete run: after one failed attempt, two more
visualisation calls and two commits give two more attempts, the one that
throws is reported. -/
theorem C7_failed_open_retried_witness :
    (step sampleSession
      (Call.setVisualization sampleImage OpenResult.threw)).params.outputTrackedVideo = true ∧
    (step sampleSession
      (Call.setVisualization sampleImage OpenResult.threw)).video_writer.isOpened = false ∧
    (∀ c ∈ [Call.writeObservation, Call.setVisualization sampleImage OpenResult.failed,
        Call.writeObservation, Call.setVisualization sampleImage OpenResult.threw],
      c.isOpeningSetVisualization = false) ∧
    (run (step sampleSession (Call.setVisualization sampleImage OpenResult.threw))
      [Call.writeObservation, Call.setVisualization sampleImage OpenResult.failed,
        Call.writeObservation,
        Call.setVisualization sampleImage OpenResult.threw]).video_writer.openCalls.length
      = (step sampleSession
          (Call.setVisualization sampleImage OpenResult.threw)).video_writer.openCalls.length
        + 2 :=
  ⟨by decide, by decide, by decide,
   (C7_failed_open_retried
      (step sampleSession (Call.setVisualization sampleImage OpenResult.threw))
      [Call.writeObservation, Call.setVisualization sampleImage OpenResult.failed,
        Call.writeObservation, Call.setVisualization sampleImage OpenResult.threw]
      (by decide) (by decide) (by decide)).2.1⟩

/-! ## Output file names (claim C8) -/

/-- C8 at the identifier `dir/clip.part1.mp4` with output directory `out`: the
constructor derives the name `clip.part1`, and then computes the paths
`out/clip.csv`, `out/clip.hog` and `out/clip.avi`, because
`replace_extension` takes `.part1` for an extension of the name and replaces
it.  The tabular path is not `out/clip.part1.csv`. -/
theorem C8_dotted_name_paths :
    (RecorderOpenFace.new "out" "dir/clip.part1.mp4" allOutputs ⟨true, false⟩
      ⟨⟨0⟩, ⟨0⟩, false⟩).filename = "clip.part1" ∧
    (RecorderOpenFace.new "out" "dir/clip.part1.mp4" allOutputs ⟨true, false⟩
      ⟨⟨0⟩, ⟨0⟩, false⟩).csv_filename = "out/clip.csv" ∧
    (RecorderOpenFace.new "out" "dir/clip.part1.mp4" allOutputs ⟨true, false⟩
      ⟨⟨0⟩, ⟨0⟩, false⟩).hog_recorder.opened = ["out/clip.hog"] ∧
    (RecorderOpenFace.new "out" "dir/clip.part1.mp4" allOutputs ⟨true, false⟩
      ⟨⟨0⟩, ⟨0⟩, false⟩).video_filename = "out/clip.avi" ∧
    (RecorderOpenFace.new "out" "dir/clip.part1.mp4" allOutputs ⟨true, false⟩
      ⟨⟨0⟩, ⟨0⟩, false⟩).csv_filename ≠ "out/clip.part1.csv" := by
  decide

/-- For an identifier whose name holds a single dot the paths are as the
specification gives them: `dir/clip.mp4` with output directory `out` gives the
name `clip` and the paths `out/clip.csv`, `out/clip.hog`, `out/clip.avi`. -/
theorem plain_name_paths :
    sampleSession.filename = "clip" ∧
    sampleSession.csv_filename = "out/clip.csv" ∧
    sampleSession.hog_recorder.opened = ["out/clip.hog"] ∧
    sampleSession.video_filename = "out/clip.avi" := by
  decide

end Recorder
